import Mathlib

/-!
Verification of the TiKV start-script renderer
(pkg/manager/member/startscript/v2/tikv_start_script.go).

The renderer takes a declarative cluster description and produces the shell
script used as the TiKV container entrypoint.  The embedding below mirrors
the Go code: the input model, the resolver that derives concrete addressing
values, and the template composition producing the final script text.
Go text/template substitution on the constant fragments is embedded as
explicit string concatenation, with the whitespace trimming performed by
the template markers applied where the template performs it.

Helpers that live outside src/ (controller name builders, port and path
constants, the shared common fragments, renderTemplateFunc and the
TidbCluster predicate methods) are modelled from the spec; each such
definition carries a doc comment starting with: Modelled from the spec.
-/

/-- Modelled from the spec: controller.PDMemberName (pkg/controller, not under
src/) builds the PD service name of a cluster from the cluster name. -/
def PDMemberName (clusterName : String) : String :=
  clusterName ++ "-pd"

/-- Modelled from the spec: controller.TiKVPeerMemberName (pkg/controller, not
under src/) builds the TiKV peer service name from the cluster name; the spec
calls this the member peer-service name used in the advertise host. -/
def TiKVPeerMemberName (clusterName : String) : String :=
  clusterName ++ "-tikv-peer"

/-- Modelled from the spec: v1alpha1.DefaultPDClientPort (not under src/); the
spec scenario with coordinator address pd:2379 fixes the well-known value. -/
def DefaultPDClientPort : Nat := 2379

/-- Modelled from the spec: v1alpha1.DefaultTiKVServerPort (not under src/), the
fixed well-known server channel port. -/
def DefaultTiKVServerPort : Nat := 20160

/-- Modelled from the spec: v1alpha1.DefaultTiKVStatusPort (not under src/), the
fixed well-known status channel port. -/
def DefaultTiKVStatusPort : Nat := 20180

/-- Modelled from the spec: constants.TiKVDataVolumeMountPath (not under src/),
the fixed mount path joined with the configured data subdirectory. -/
def TiKVDataVolumeMountPath : String := "/var/lib/tikv"

/-- Modelled from the spec: the feature-flag token enabling the wait-for-DNS
name and IP match behavior (v1alpha1, not under src/). -/
def StartScriptV2FeatureFlagWaitForDnsNameIpMatch : String :=
  "WaitForDnsNameIpMatch"

/-- Modelled from the spec: componentCommonScript (startscript v2 common.go, not
under src/), the shared fragment prepended to every rendered start script. -/
def componentCommonScript : String :=
  "#!/bin/sh\n\nset -uo pipefail\n"

/-- Modelled from the spec: componentCommonWaitForDnsIpMatchScript (common.go,
not under src/), the shared polling fragment that waits until the component
domain resolves to the pod IP, bounded by the waitThreshold shell variable. -/
def componentCommonWaitForDnsIpMatchScript : String :=
  "elapseTime=0\nperiod=1\nwhile true; do\n  sleep $period\n  elapseTime=$(( elapseTime + period ))\n  if [ $elapseTime -ge $waitThreshold ]; then\n    echo \"waiting for dns lookup timeout\"\n    break\n  fi\n  digRes=$(eval \"$nsLookupCmd\")\n  if [ \"$digRes\" == \"$POD_IP\" ]; then\n    break\n  fi\ndone"

/-- Modelled from Go path/filepath.Join for the arguments this renderer passes
(a rooted constant path and a relative subdirectory): the empty subdirectory
leaves the mount path unchanged, otherwise the parts are joined with a slash.
Further lexical path cleaning performed by Go is not needed for these claims. -/
def filepathJoin (a b : String) : String :=
  if b = "" then a else a ++ "/" ++ b

/-- Modelled from the spec: the referenced-cluster identity
(tc.Spec.Cluster, a TidbClusterRef, not under src/). -/
structure TidbClusterRef where
  name : String

/-- Modelled from the spec: the TiKV member section of the cluster spec; only
the per-member data subdirectory is read by the renderer. -/
structure TiKVSpec where
  dataSubDir : String

/-- Input cluster specification, holding exactly the fields the renderer reads
(tc.Spec in the Go code; the struct itself is not under src/, its fields are
modelled from the spec: addressing preference, cluster-domain suffix,
cross-cluster flag, referenced cluster, local PD presence, dynamic
configuration flag, feature-flag token list, startup timeout). -/
structure TidbClusterSpec where
  preferIPv6 : Bool
  clusterDomain : String
  acrossK8s : Bool
  cluster : Option TidbClusterRef
  pd : Option Unit
  tikv : TiKVSpec
  enableDynamicConfiguration : Option Bool
  startScriptV2FeatureFlags : List String
  startTimeout : Int

/-- The TidbCluster object as read by the renderer: name, namespace and spec. -/
structure TidbCluster where
  name : String
  «namespace» : String
  spec : TidbClusterSpec

/-- Modelled from the spec: tc.AcrossK8s() (v1alpha1 methods, not under src/),
true when the member belongs to a cluster spanning multiple kubernetes
clusters. -/
def TidbCluster.AcrossK8s (tc : TidbCluster) : Bool :=
  tc.spec.acrossK8s

/-- Modelled from the spec: tc.Heterogeneous() (not under src/), true when a
referenced cluster with a nonempty name is configured. -/
def TidbCluster.Heterogeneous (tc : TidbCluster) : Bool :=
  match tc.spec.cluster with
  | some r => r.name != ""
  | none => false

/-- Modelled from the spec: tc.WithoutLocalPD() (not under src/), true when the
cluster declares no local PD component. -/
def TidbCluster.WithoutLocalPD (tc : TidbCluster) : Bool :=
  tc.spec.pd.isNone

/-- Modelled from the spec: tc.PDStartTimeout() (not under src/), the
configured startup-timeout value. -/
def TidbCluster.PDStartTimeout (tc : TidbCluster) : Int :=
  tc.spec.startTimeout

/-- AcrossK8sScriptModel: the values feeding the cross-cluster discovery
subscript (tikv_start_script.go lines 52-55). -/
structure AcrossK8sScriptModel where
  PDAddr : String
  DiscoveryAddr : String

/-- TiKVStartScriptModel: fields for rendering the TiKV start script
(tikv_start_script.go lines 29-41). -/
structure TiKVStartScriptModel where
  PDAddr : String
  Addr : String
  StatusAddr : String
  AdvertiseHost : String
  AdvertiseAddr : String
  DataDir : String
  Capacity : String
  ExtraArgs : String
  KVStartTimeout : Int
  AcrossK8s : Option AcrossK8sScriptModel

/-- The resolver part of RenderTiKVStartScript (tikv_start_script.go lines
45-95): derives the TiKVStartScriptModel from the cluster object.  Each let
mirrors the corresponding Go statement; the Go code overwrites m.PDAddr inside
the branch chain, embedded here as a single conditional.  In the heterogeneous
branch the Go code dereferences tc.Spec.Cluster.Name, which the Heterogeneous
guard ensures is present; getD supplies the impossible default. -/
def buildTiKVStartScriptModel (tc : TidbCluster) : TiKVStartScriptModel :=
  let tcName := tc.name
  let tcNS := tc.«namespace»
  let peerServiceName := TiKVPeerMemberName tcName
  let pdAddrDefault := PDMemberName tcName ++ ":" ++ toString DefaultPDClientPort
  let acrossK8s : Option AcrossK8sScriptModel :=
    if tc.AcrossK8s then
      some { PDAddr := pdAddrDefault,
             DiscoveryAddr := tcName ++ "-discovery." ++ tcNS ++ ":10261" }
    else
      none
  let pdAddr :=
    if tc.AcrossK8s then
      "$\x7bresult\x7d"
    else if tc.Heterogeneous && tc.WithoutLocalPD then
      PDMemberName ((tc.spec.cluster.map TidbClusterRef.name).getD "") ++ ":" ++ toString DefaultPDClientPort
    else
      pdAddrDefault
  let listenHost := if tc.spec.preferIPv6 then "[::]" else "0.0.0.0"
  let addr := listenHost ++ ":" ++ toString DefaultTiKVServerPort
  let statusAddr := listenHost ++ ":" ++ toString DefaultTiKVStatusPort
  let advertiseHostBase := "$\x7bTIKV_POD_NAME\x7d." ++ peerServiceName ++ "." ++ tcNS ++ ".svc"
  let advertiseHost :=
    if tc.spec.clusterDomain ≠ "" then advertiseHostBase ++ "." ++ tc.spec.clusterDomain
    else advertiseHostBase
  let advertiseAddr := advertiseHost ++ ":" ++ toString DefaultTiKVServerPort
  let dataDir := filepathJoin TiKVDataVolumeMountPath tc.spec.tikv.dataSubDir
  let capacity := "$\x7bCAPACITY\x7d"
  let kvStartTimeout := tc.PDStartTimeout
  let extraArgsList : List String :=
    if tc.spec.enableDynamicConfiguration = some true then
      let advertiseStatusAddrBase := "$\x7bTIKV_POD_NAME\x7d." ++ peerServiceName ++ "." ++ tcNS ++ ".svc"
      let advertiseStatusAddr :=
        if tc.spec.clusterDomain ≠ "" then advertiseStatusAddrBase ++ "." ++ tc.spec.clusterDomain
        else advertiseStatusAddrBase
      ["--advertise-status-addr=" ++ advertiseStatusAddr ++ ":" ++ toString DefaultTiKVStatusPort]
    else
      []
  let extraArgs := if extraArgsList.length > 0 then String.intercalate " " extraArgsList else ""
  { PDAddr := pdAddr, Addr := addr, StatusAddr := statusAddr,
    AdvertiseHost := advertiseHost, AdvertiseAddr := advertiseAddr,
    DataDir := dataDir, Capacity := capacity, ExtraArgs := extraArgs,
    KVStartTimeout := kvStartTimeout, AcrossK8s := acrossK8s }

/-- The AcrossK8sSubscript template body (tikvStartSubScript, lines 108-119)
rendered against the model: the discovery-polling loop.  The trailing newline
after done is trimmed by the end marker of the define block. -/
def acrossK8sSubscriptRendered (a : AcrossK8sScriptModel) : String :=
  "\npd_url=" ++ a.PDAddr
  ++ "\nencoded_domain_url=$(echo $pd_url | base64 | tr \"\\n\" \" \" | sed \"s/ //g\")"
  ++ "\ndiscovery_url=" ++ a.DiscoveryAddr
  ++ "\nuntil result=$(wget -qO- -T 3 http://$\x7bdiscovery_url\x7d/verify/$\x7bencoded_domain_url\x7d 2>/dev/null | sed \x27s/http:\\/\\///g\x27); do"
  ++ "\n    echo \"waiting for the verification of PD endpoints ...\""
  ++ "\n    sleep $((RANDOM % 5))"
  ++ "\ndone"

/-- tikvWaitForDnsIpMatchSubScript (lines 122-126) rendered against the model:
the DNS-await fragment parameterized by advertise host and timeout, followed by
the shared polling fragment. -/
def tikvWaitForDnsIpMatchSubScriptRendered (m : TiKVStartScriptModel) : String :=
  "\ncomponentDomain=" ++ m.AdvertiseHost
  ++ "\nwaitThreshold=" ++ toString m.KVStartTimeout
  ++ "\nnsLookupCmd=\"getent ahosts $componentDomain | sed -n \x27s/ *STREAM.*//p\x27\"\n"
  ++ componentCommonWaitForDnsIpMatchScript

/-- tikvWaitForDnsOnlySubScript (line 128): empty for backward compatibility. -/
def tikvWaitForDnsOnlySubScript : String := ""

/-- replaceTikvStartScriptDnsAwaitPart (lines 157-163), embedded at the
rendered level: substitutes the dnsAwaitPart placeholder of the base script
with either the DNS-await fragment or the empty fragment. -/
def replaceTikvStartScriptDnsAwaitPart (m : TiKVStartScriptModel) (withLocalIpMatch : Bool) : String :=
  if withLocalIpMatch then tikvWaitForDnsIpMatchSubScriptRendered m
  else tikvWaitForDnsOnlySubScript

/-- The pod-identity assignment opening the base script (line 131). -/
def podNameLine : String :=
  "\nTIKV_POD_NAME=$\x7bPOD_NAME:-$HOSTNAME\x7d"

/-- The conditional AcrossK8s subscript invocation (line 133): rendered only
when the model carries a cross-cluster section. -/
def acrossPart (m : TiKVStartScriptModel) : String :=
  match m.AcrossK8s with
  | some a => acrossK8sSubscriptRendered a
  | none => ""

/-- The base argument-assembly fragment (lines 135-142): the required flags. -/
def argsAssemblyPart (m : TiKVStartScriptModel) : String :=
  "\n\nARGS=\"--pd=" ++ m.PDAddr ++ " \\"
  ++ "\n--advertise-addr=" ++ m.AdvertiseAddr ++ " \\"
  ++ "\n--addr=" ++ m.Addr ++ " \\"
  ++ "\n--status-addr=" ++ m.StatusAddr ++ " \\"
  ++ "\n--data-dir=" ++ m.DataDir ++ " \\"
  ++ "\n--capacity=" ++ m.Capacity ++ " \\"
  ++ "\n--config=/etc/tikv/tikv.toml\""

/-- The conditional ExtraArgs append (lines 143-145): rendered only for a
nonempty ExtraArgs string, separated from the base flags by one space. -/
def extraArgsPart (m : TiKVStartScriptModel) : String :=
  if m.ExtraArgs ≠ "" then "\nARGS=\"$\x7bARGS\x7d " ++ m.ExtraArgs ++ "\"" else ""

/-- The runtime store-labels conditional, the echo lines and the exec line
(lines 147-153). -/
def storeLabelsAndExecPart : String :=
  "\n\nif [ ! -z \"$\x7bSTORE_LABELS:-\x7d\" ]; then"
  ++ "\n  LABELS=\"--labels $\x7bSTORE_LABELS\x7d \""
  ++ "\n  ARGS=\"$\x7bARGS\x7d$\x7bLABELS\x7d\""
  ++ "\nfi"
  ++ "\n\necho \"starting tikv-server ...\""
  ++ "\necho \"/tikv-server $\x7bARGS\x7d\""
  ++ "\nexec /tikv-server $\x7bARGS\x7d\n"

/-- tikvStartScript (lines 130-154) rendered against the model, assembled in
the fixed template order.  The template trim markers around the AcrossK8s
block consume the newline that follows the dns-await placeholder and the
spaces around the subscript invocation; the trim marker before the ExtraArgs
block consumes the newline after the config flag line. -/
def tikvStartScriptRendered (m : TiKVStartScriptModel) (waitForDnsNameIpMatchOnStartup : Bool) : String :=
  podNameLine
  ++ replaceTikvStartScriptDnsAwaitPart m waitForDnsNameIpMatchOnStartup
  ++ acrossPart m
  ++ argsAssemblyPart m
  ++ extraArgsPart m
  ++ storeLabelsAndExecPart

/-- The full template built in RenderTiKVStartScript (lines 96-102): the common
shared fragment followed by the base script with the dns-await part already
substituted. -/
def tikvStartScriptTpl (waitForDnsNameIpMatchOnStartup : Bool) (m : TiKVStartScriptModel) : String :=
  componentCommonScript ++ tikvStartScriptRendered m waitForDnsNameIpMatchOnStartup

/-- Modelled from the spec: renderTemplateFunc (startscript v2 common.go, not
under src/) executes a parsed template against a model, returning the complete
rendered text, or the execution error with no partial output.  Execution of
the constant well-formed TiKV fragments against a TiKVStartScriptModel cannot
fail, which the model reflects by total success. -/
def renderTemplateFunc (render : TiKVStartScriptModel → String) (m : TiKVStartScriptModel) : Except String String :=
  Except.ok (render m)

/-- The wait-for-DNS flag lookup (lines 93-94): slices.Contains on the
feature-flag token list. -/
def waitForDnsNameIpMatchOnStartup (tc : TidbCluster) : Bool :=
  tc.spec.startScriptV2FeatureFlags.contains StartScriptV2FeatureFlagWaitForDnsNameIpMatch

/-- RenderTiKVStartScript (lines 44-105): resolve the model from the cluster,
then render the composed template. -/
def RenderTiKVStartScript (tc : TidbCluster) : Except String String :=
  renderTemplateFunc
    (tikvStartScriptTpl (waitForDnsNameIpMatchOnStartup tc))
    (buildTiKVStartScriptModel tc)

/-- The successful render payload: the full composed script text. -/
def renderedTiKVScript (tc : TidbCluster) : String :=
  tikvStartScriptTpl (waitForDnsNameIpMatchOnStartup tc) (buildTiKVStartScriptModel tc)

/-- Number of (possibly overlapping) occurrences of the pattern p at the start
positions of l: used to state presence, absence and exactly-once properties of
fragments inside the rendered script text. -/
def subCount (p : List Char) : List Char → Nat
  | [] => 0
  | x :: rest => (if p.isPrefixOf (x :: rest) then 1 else 0) + subCount p rest

/-- Occurrence count of pattern string p inside string s. -/
def subCountStr (p s : String) : Nat :=
  subCount p.data s.data

/-- Number of occurrences of a character in a string. -/
def countChar (c : Char) (s : String) : Nat :=
  s.data.count c

/-- Characters that appear in the identifier-like configuration fields of a
well-formed cluster object: alphanumerics, dash, dot, slash, underscore
(kubernetes object names and DNS domains are drawn from these). -/
def safeChar (ch : Char) : Bool :=
  ch.isAlpha || ch.isDigit || ch == '-' || ch == '.' || ch == '/' || ch == '_'

/-- A string all of whose characters are safe identifier characters. -/
def stringSafe (s : String) : Bool :=
  s.data.all safeChar

/-- Well-formedness of the input cluster object: the caller-supplied name,
namespace, cluster domain, data subdirectory, timeout rendering and referenced
cluster name consist of identifier characters only.  The spec makes malformed
input the responsibility of the caller. -/
def wellFormed (tc : TidbCluster) : Bool :=
  stringSafe tc.name && stringSafe tc.«namespace» && stringSafe tc.spec.clusterDomain
  && stringSafe tc.spec.tikv.dataSubDir
  && stringSafe (toString tc.PDStartTimeout)
  && (match tc.spec.cluster with
      | some r => stringSafe r.name
      | none => true)

/-- Model of the runtime behavior of the emitted discovery-polling shell loop
(tikv_start_script.go lines 112-117): iteration i queries the discovery
service through the oracle; the loop has exited by iteration n exactly when
some earlier query succeeded.  On each failure the script sleeps
RANDOM % 5 time units before retrying. -/
def discoveryLoopExitsBy (oracle : Nat → Option String) : Nat → Bool
  | 0 => false
  | Nat.succ n => discoveryLoopExitsBy oracle n || (oracle n).isSome

/-- Sleep duration of one discovery-polling retry, from the emitted shell
arithmetic RANDOM % 5. -/
def discoveryBackoff (rand : Nat) : Nat :=
  rand % 5

/-- Contiguous containment of the pattern string p in the string s. -/
def containsSub (p s : String) : Prop :=
  ∃ u v : String, s = u ++ p ++ v

/-- Scenario A of the spec: default single-cluster IPv4 configuration with no
feature flags. -/
def tcScenarioA : TidbCluster :=
  { name := "basic", «namespace» := "ns",
    spec := { preferIPv6 := false, clusterDomain := "", acrossK8s := false,
              cluster := none, pd := some (), tikv := { dataSubDir := "" },
              enableDynamicConfiguration := none,
              startScriptV2FeatureFlags := [], startTimeout := 30 } }

/-- Scenario B of the spec: a cross-cluster configuration. -/
def tcScenarioB : TidbCluster :=
  { name := "db", «namespace» := "ns",
    spec := { preferIPv6 := false, clusterDomain := "", acrossK8s := true,
              cluster := none, pd := some (), tikv := { dataSubDir := "" },
              enableDynamicConfiguration := none,
              startScriptV2FeatureFlags := [], startTimeout := 30 } }

/-- Scenario C of the spec: IPv6 addressing preference. -/
def tcScenarioC : TidbCluster :=
  { name := "basic", «namespace» := "ns",
    spec := { preferIPv6 := true, clusterDomain := "", acrossK8s := false,
              cluster := none, pd := some (), tikv := { dataSubDir := "" },
              enableDynamicConfiguration := none,
              startScriptV2FeatureFlags := [], startTimeout := 30 } }

/-- Scenario D of the spec: dynamic configuration enabled. -/
def tcScenarioD : TidbCluster :=
  { name := "basic", «namespace» := "ns",
    spec := { preferIPv6 := false, clusterDomain := "", acrossK8s := false,
              cluster := none, pd := some (), tikv := { dataSubDir := "" },
              enableDynamicConfiguration := some true,
              startScriptV2FeatureFlags := [], startTimeout := 30 } }

/-- A configuration carrying the wait-for-DNS feature-flag token. -/
def tcScenarioDns : TidbCluster :=
  { name := "basic", «namespace» := "ns",
    spec := { preferIPv6 := false, clusterDomain := "", acrossK8s := false,
              cluster := none, pd := some (), tikv := { dataSubDir := "" },
              enableDynamicConfiguration := none,
              startScriptV2FeatureFlags := [StartScriptV2FeatureFlagWaitForDnsNameIpMatch],
              startTimeout := 30 } }

/-- The configuration tc with the IPv6 addressing preference set to b and all
other fields unchanged. -/
def withIPv6 (tc : TidbCluster) (b : Bool) : TidbCluster :=
  { tc with spec := { tc.spec with preferIPv6 := b } }

/-- A list is a Boolean prefix of itself followed by anything. -/
theorem isPrefixOf_self_append (p t : List Char) : p.isPrefixOf (p ++ t) = true := by
  induction p with
  | nil => simp [List.isPrefixOf]
  | cons a p' ih => simp [List.isPrefixOf, ih]

/-- Elements of a Boolean prefix agree with the longer list position-wise. -/
theorem get?_of_isPrefixOf (p : List Char) :
    ∀ (l : List Char) (k : Nat) (c : Char),
      p.isPrefixOf l = true → p.get? k = some c → l.get? k = some c := by
  induction p with
  | nil =>
    intro l k c _ hk
    simp at hk
  | cons a p' ih =>
    intro l k c hpre hk
    cases l with
    | nil => simp [List.isPrefixOf] at hpre
    | cons b l' =>
      rw [List.isPrefixOf, Bool.and_eq_true] at hpre
      obtain ⟨hab, hrest⟩ := hpre
      cases k with
      | zero =>
        rw [List.get?_cons_zero] at hk ⊢
        rw [beq_iff_eq] at hab
        rw [← hab]
        exact hk
      | succ j =>
        rw [List.get?_cons_succ] at hk ⊢
        exact ih l' j c hrest hk

/-- Dropping up to a known element exposes that element as the head. -/
theorem drop_eq_cons_of_get? (l : List Char) :
    ∀ (n : Nat) (a : Char), l.get? n = some a → l.drop n = a :: l.drop (n + 1) := by
  induction l with
  | nil =>
    intro n a h
    simp at h
  | cons x rest ih =>
    intro n a h
    cases n with
    | zero =>
      rw [List.get?_cons_zero] at h
      injection h with h
      simp [h]
    | succ j =>
      rw [List.get?_cons_succ] at h
      rw [List.drop_succ_cons, List.drop_succ_cons]
      exact ih j a h

/-- Counts do not grow when one more element is dropped. -/
theorem count_drop_succ_le (l : List Char) (n : Nat) (c : Char) :
    (l.drop (n + 1)).count c ≤ (l.drop n).count c := by
  have hdd : l.drop (n + 1) = (l.drop n).drop 1 := by
    rw [List.drop_drop]
  rw [hdd]
  cases h : l.drop n with
  | nil => simp
  | cons y t => simp [List.count_cons]

/-- Every occurrence of p contains the character at offset k of p, so the
occurrence count of p from position k on is bounded by the count of that
character in the dropped list. -/
theorem subCount_le_count_drop (p : List Char) (c : Char) (l : List Char) :
    ∀ k : Nat, p.get? k = some c → subCount p l ≤ (l.drop k).count c := by
  induction l with
  | nil =>
    intro k _
    simp [subCount]
  | cons x rest ih =>
    intro k hk
    rw [subCount]
    have hifle : (if p.isPrefixOf (x :: rest) = true then 1 else 0) ≤ 1 := by
      split <;> omega
    by_cases hpre : p.isPrefixOf (x :: rest) = true
    · cases k with
      | zero =>
        have hx : p.get? 0 = some c := hk
        have hxc : x = c := by
          cases p with
          | nil => simp at hx
          | cons a p' =>
            rw [List.isPrefixOf, Bool.and_eq_true] at hpre
            rw [List.get?_cons_zero] at hx
            injection hx with hx
            have hab := hpre.1
            rw [beq_iff_eq] at hab
            rw [← hab, hx]
        have h0 := ih 0 hk
        simp only [List.drop_zero] at h0 ⊢
        have hcount : (x :: rest).count c = rest.count c + 1 := by
          rw [hxc, List.count_cons_self]
        rw [hcount]
        omega
      | succ j =>
        have hrg : rest.get? j = some c := by
          cases p with
          | nil => simp at hk
          | cons a p' =>
            rw [List.isPrefixOf, Bool.and_eq_true] at hpre
            rw [List.get?_cons_succ] at hk
            exact get?_of_isPrefixOf p' rest j c hpre.2 hk
        have hdc : rest.drop j = c :: rest.drop (j + 1) := drop_eq_cons_of_get? rest j c hrg
        have hih := ih (j + 1) hk
        rw [List.drop_succ_cons, hdc, List.count_cons_self]
        omega
    · have hif0 : (if p.isPrefixOf (x :: rest) = true then 1 else 0) = 0 := by
        simp [hpre]
      rw [hif0]
      cases k with
      | zero =>
        have h0 := ih 0 hk
        simp only [List.drop_zero] at h0 ⊢
        have hcount : rest.count c ≤ (x :: rest).count c := by
          rw [List.count_cons]
          exact Nat.le_add_right _ _
        omega
      | succ j =>
        have hih := ih (j + 1) hk
        rw [List.drop_succ_cons, Nat.zero_add]
        calc subCount p rest ≤ (rest.drop (j + 1)).count c := hih
          _ ≤ (rest.drop j).count c := count_drop_succ_le rest j c

/-- Occurrences of a pattern are bounded by occurrences of any one of its
characters. -/
theorem subCount_le_count (p l : List Char) (c : Char) (hc : c ∈ p) :
    subCount p l ≤ l.count c := by
  obtain ⟨k, hk⟩ := List.get?_of_mem hc
  calc subCount p l ≤ (l.drop k).count c := subCount_le_count_drop p c l k hk
    _ ≤ l.count c := (List.drop_sublist k l).count_le c

/-- A pattern containing a character that is absent from the text does not
occur in the text. -/
theorem subCount_eq_zero (p l : List Char) (c : Char) (hc : c ∈ p)
    (h0 : l.count c = 0) : subCount p l = 0 :=
  Nat.le_zero.mp (h0 ▸ subCount_le_count p l c hc)

/-- A text of which the pattern is a contiguous part contains at least one
occurrence of the pattern. -/
theorem subCount_ge_one (p : List Char) (hp : p ≠ []) :
    ∀ (u v : List Char), 1 ≤ subCount p (u ++ p ++ v) := by
  intro u
  induction u with
  | nil =>
    intro v
    cases p with
    | nil => exact absurd rfl hp
    | cons a p' =>
      simp only [List.nil_append, List.cons_append]
      rw [subCount]
      have : (a :: p').isPrefixOf (a :: p' ++ v) = true :=
        isPrefixOf_self_append (a :: p') v
      simp [this]
  | cons a u' ih =>
    intro v
    simp only [List.cons_append]
    rw [subCount]
    have := ih v
    simp only [List.append_assoc] at this ⊢
    omega

/-- Exactly-once criterion: if some character of the pattern occurs exactly
once in the text and the pattern occurs contiguously, it occurs exactly once. -/
theorem subCount_eq_one (p l : List Char) (c : Char) (u v : List Char)
    (hc : c ∈ p) (h1 : l.count c = 1) (hd : l = u ++ p ++ v) :
    subCount p l = 1 := by
  have hle : subCount p l ≤ 1 := h1 ▸ subCount_le_count p l c hc
  have hge : 1 ≤ subCount p l := by
    rw [hd]
    exact subCount_ge_one p (List.ne_nil_of_mem hc) u v
  omega

/-- Character counts distribute over string concatenation. -/
theorem countChar_append (c : Char) (a b : String) :
    countChar c (a ++ b) = countChar c a + countChar c b := by
  simp [countChar, String.data_append, List.count_append]

/-- Safe strings contain no unsafe character. -/
theorem countChar_eq_zero_of_safe (c : Char) (s : String)
    (hs : stringSafe s = true) (hc : safeChar c = false) : countChar c s = 0 := by
  rw [countChar, List.count_eq_zero]
  intro hmem
  rw [stringSafe, List.all_eq_true] at hs
  have := hs c hmem
  rw [hc] at this
  exact Bool.noConfusion this

/-- C1: for every input cluster configuration exactly one of the three
PD-endpoint selection branches fires, in priority order: cross-cluster gives
the deferred placeholder token, otherwise heterogeneous-without-local-PD gives
the referenced cluster PD address, otherwise the own-cluster PD address; the
guards carried by each disjunct are pairwise contradictory, so the three
outcomes are mutually exclusive. -/
theorem claim_C1_pd_endpoint_branch_exclusive (tc : TidbCluster) :
    (tc.AcrossK8s = true
       ∧ (buildTiKVStartScriptModel tc).PDAddr = "$\x7bresult\x7d")
    ∨ (tc.AcrossK8s = false
       ∧ (tc.Heterogeneous && tc.WithoutLocalPD) = true
       ∧ ∃ r, tc.spec.cluster = some r
           ∧ (buildTiKVStartScriptModel tc).PDAddr
               = PDMemberName r.name ++ ":" ++ toString DefaultPDClientPort)
    ∨ (tc.AcrossK8s = false
       ∧ (tc.Heterogeneous && tc.WithoutLocalPD) = false
       ∧ (buildTiKVStartScriptModel tc).PDAddr
           = PDMemberName tc.name ++ ":" ++ toString DefaultPDClientPort) := by
  cases hA : tc.AcrossK8s with
  | true =>
    left
    exact ⟨rfl, by simp [buildTiKVStartScriptModel, hA]⟩
  | false =>
    cases hB : (tc.Heterogeneous && tc.WithoutLocalPD) with
    | true =>
      have hHet : tc.Heterogeneous = true := (Bool.and_eq_true _ _ |>.mp hB).1
      cases hC : tc.spec.cluster with
      | none =>
        rw [TidbCluster.Heterogeneous, hC] at hHet
        exact Bool.noConfusion hHet
      | some r =>
        refine Or.inr (Or.inl ⟨rfl, rfl, r, rfl, ?_⟩)
        simp [buildTiKVStartScriptModel, hA, hB, hC]
    | false =>
      refine Or.inr (Or.inr ⟨rfl, rfl, ?_⟩)
      simp [buildTiKVStartScriptModel, hA, hB]

/-- C5: rendering has a single failure channel, the template-composition error
of the Except result; for every configuration the render call returns the
complete composed script through that channel (never a partial composition and
never a process abort), and for the constant well-formed fragments the error
case never fires. -/
theorem claim_C5_render_single_failure_mode_total (tc : TidbCluster) :
    RenderTiKVStartScript tc
      = Except.ok (componentCommonScript
          ++ tikvStartScriptRendered (buildTiKVStartScriptModel tc)
              (waitForDnsNameIpMatchOnStartup tc)) := rfl

/-- C8: rendering is deterministic: two render calls on identical input
produce byte-identical script text. -/
theorem claim_C8_render_deterministic (tc1 tc2 : TidbCluster) (h : tc1 = tc2) :
    RenderTiKVStartScript tc1 = RenderTiKVStartScript tc2 := by
  rw [h]

/-- Witness for C8 at the scenario A configuration. -/
theorem claim_C8_render_deterministic_witness :
    RenderTiKVStartScript tcScenarioA = RenderTiKVStartScript tcScenarioA :=
  claim_C8_render_deterministic tcScenarioA tcScenarioA rfl

/-- C9: a nil dynamic-configuration flag renders byte-identically to an
explicit false flag, and in that case no extra-argument string is emitted. -/
theorem claim_C9_nil_dynamic_config_equals_false (tc : TidbCluster) :
    RenderTiKVStartScript
        { tc with spec := { tc.spec with enableDynamicConfiguration := none } }
      = RenderTiKVStartScript
        { tc with spec := { tc.spec with enableDynamicConfiguration := some false } }
    ∧ (buildTiKVStartScriptModel
        { tc with spec := { tc.spec with enableDynamicConfiguration := none } }).ExtraArgs
        = "" := by
  constructor
  · rfl
  · simp [buildTiKVStartScriptModel]

/-- Decomposition of the well-formedness predicate into its conjuncts. -/
theorem wellFormed_parts (tc : TidbCluster) (hw : wellFormed tc = true) :
    stringSafe tc.name = true ∧ stringSafe tc.«namespace» = true
    ∧ stringSafe tc.spec.clusterDomain = true
    ∧ stringSafe tc.spec.tikv.dataSubDir = true
    ∧ stringSafe (toString tc.PDStartTimeout) = true
    ∧ ∀ r, tc.spec.cluster = some r → stringSafe r.name = true := by
  rw [wellFormed] at hw
  simp only [Bool.and_eq_true] at hw
  refine ⟨hw.1.1.1.1.1, hw.1.1.1.1.2, hw.1.1.1.2, hw.1.1.2, hw.1.2, ?_⟩
  intro r hr
  have hm := hw.2
  rw [hr] at hm
  exact hm

/-- The peer service name contains no unsafe character for a safe cluster
name. -/
theorem countChar_peer (tc : TidbCluster) (c : Char)
    (hn : stringSafe tc.name = true) (hc : safeChar c = false) :
    countChar c (TiKVPeerMemberName tc.name) = 0 := by
  have h1 := countChar_eq_zero_of_safe c tc.name hn hc
  have h2 := countChar_eq_zero_of_safe c "-tikv-peer" (by decide) hc
  simp [TiKVPeerMemberName, countChar_append, h1, h2]

/-- The resolved advertise host contains no unsafe character apart from those
of the pod-name placeholder literal. -/
theorem countChar_AdvertiseHost (tc : TidbCluster) (c : Char)
    (hw : wellFormed tc = true) (hc : safeChar c = false)
    (hb : countChar c "$\x7bTIKV_POD_NAME\x7d." = 0) :
    countChar c (buildTiKVStartScriptModel tc).AdvertiseHost = 0 := by
  obtain ⟨hn, hns, hdom, -, -, -⟩ := wellFormed_parts tc hw
  have h1 := countChar_peer tc c hn hc
  have h2 := countChar_eq_zero_of_safe c tc.«namespace» hns hc
  have h3 := countChar_eq_zero_of_safe c tc.spec.clusterDomain hdom hc
  have h4 := countChar_eq_zero_of_safe c "." (by decide) hc
  have h5 := countChar_eq_zero_of_safe c ".svc" (by decide) hc
  by_cases hd : tc.spec.clusterDomain = "" <;>
    simp [buildTiKVStartScriptModel, hd, countChar_append, h1, h2, h3, h4, h5, hb]

/-- The resolved advertise address contains no unsafe character apart from the
pod-name placeholder and the port separator. -/
theorem countChar_AdvertiseAddr (tc : TidbCluster) (c : Char)
    (hw : wellFormed tc = true) (hc : safeChar c = false)
    (hb : countChar c "$\x7bTIKV_POD_NAME\x7d." = 0)
    (hcolon : countChar c ":" = 0) :
    countChar c (buildTiKVStartScriptModel tc).AdvertiseAddr = 0 := by
  have hh := countChar_AdvertiseHost tc c hw hc hb
  have hp := countChar_eq_zero_of_safe c (toString DefaultTiKVServerPort) (by decide) hc
  have hsplit : (buildTiKVStartScriptModel tc).AdvertiseAddr
      = (buildTiKVStartScriptModel tc).AdvertiseHost ++ ":" ++ toString DefaultTiKVServerPort := by
    simp [buildTiKVStartScriptModel]
  rw [hsplit]
  simp [countChar_append, hh, hcolon, hp]

/-- The resolved listen address contains no character outside the wildcard
host literals and the port. -/
theorem countChar_Addr (tc : TidbCluster) (c : Char) (hc : safeChar c = false)
    (hbr : countChar c "[::]:" = 0) (h0 : countChar c "0.0.0.0:" = 0) :
    countChar c (buildTiKVStartScriptModel tc).Addr = 0 := by
  have hp := countChar_eq_zero_of_safe c (toString DefaultTiKVServerPort) (by decide) hc
  by_cases h6 : tc.spec.preferIPv6 = true <;>
    simp [buildTiKVStartScriptModel, h6, countChar_append, hbr, h0, hp]

/-- The resolved status address contains no character outside the wildcard
host literals and the port. -/
theorem countChar_StatusAddr (tc : TidbCluster) (c : Char) (hc : safeChar c = false)
    (hbr : countChar c "[::]:" = 0) (h0 : countChar c "0.0.0.0:" = 0) :
    countChar c (buildTiKVStartScriptModel tc).StatusAddr = 0 := by
  have hp := countChar_eq_zero_of_safe c (toString DefaultTiKVStatusPort) (by decide) hc
  by_cases h6 : tc.spec.preferIPv6 = true <;>
    simp [buildTiKVStartScriptModel, h6, countChar_append, hbr, h0, hp]

/-- The resolved data directory contains no unsafe character. -/
theorem countChar_DataDir (tc : TidbCluster) (c : Char)
    (hw : wellFormed tc = true) (hc : safeChar c = false) :
    countChar c (buildTiKVStartScriptModel tc).DataDir = 0 := by
  obtain ⟨-, -, -, hsub, -, -⟩ := wellFormed_parts tc hw
  have h1 := countChar_eq_zero_of_safe c tc.spec.tikv.dataSubDir hsub hc
  have h2 := countChar_eq_zero_of_safe c TiKVDataVolumeMountPath (by decide) hc
  have h3 := countChar_eq_zero_of_safe c "/" (by decide) hc
  by_cases hsd : tc.spec.tikv.dataSubDir = "" <;>
    simp [buildTiKVStartScriptModel, filepathJoin, hsd, countChar_append, h1, h2, h3]

/-- The resolved extra-argument string contains no unsafe character apart from
those of the flag literal, the pod-name placeholder and the port separator. -/
theorem countChar_ExtraArgs (tc : TidbCluster) (c : Char)
    (hw : wellFormed tc = true) (hc : safeChar c = false)
    (hb : countChar c "$\x7bTIKV_POD_NAME\x7d." = 0)
    (hcolon : countChar c ":" = 0)
    (hfl : countChar c "--advertise-status-addr=" = 0) :
    countChar c (buildTiKVStartScriptModel tc).ExtraArgs = 0 := by
  obtain ⟨hn, hns, hdom, -, -, -⟩ := wellFormed_parts tc hw
  have h1 := countChar_peer tc c hn hc
  have h2 := countChar_eq_zero_of_safe c tc.«namespace» hns hc
  have h3 := countChar_eq_zero_of_safe c tc.spec.clusterDomain hdom hc
  have h4 := countChar_eq_zero_of_safe c "." (by decide) hc
  have h5 := countChar_eq_zero_of_safe c ".svc" (by decide) hc
  have hp := countChar_eq_zero_of_safe c (toString DefaultTiKVStatusPort) (by decide) hc
  have hint : ∀ x : String, String.intercalate " " [x] = x := fun _ => rfl
  by_cases he : tc.spec.enableDynamicConfiguration = some true
  · by_cases hd : tc.spec.clusterDomain = "" <;>
      simp [buildTiKVStartScriptModel, he, hd, hint, countChar_append,
        h1, h2, h3, h4, h5, hb, hcolon, hfl, hp]
  · simp [buildTiKVStartScriptModel, he]
    rfl

/-- The conditional ExtraArgs append fragment contains no unsafe character
when the extra-argument string has none. -/
theorem countChar_extraArgsPart (m : TiKVStartScriptModel) (c : Char)
    (hm : countChar c m.ExtraArgs = 0)
    (hl : countChar c "\nARGS=\"$\x7bARGS\x7d " = 0)
    (hq : countChar c "\"" = 0) :
    countChar c (extraArgsPart m) = 0 := by
  by_cases h : m.ExtraArgs = ""
  · rw [extraArgsPart, if_neg (by simp [h])]
    rfl
  · rw [extraArgsPart, if_pos h]
    simp [countChar_append, hm, hl, hq]

/-- The resolved PD endpoint contains no unsafe character apart from the
placeholder literal and port separators, whichever selection branch fired. -/
theorem countChar_PDAddr (tc : TidbCluster) (c : Char)
    (hw : wellFormed tc = true) (hc : safeChar c = false)
    (hres : countChar c "$\x7bresult\x7d" = 0)
    (hcolon : countChar c ":" = 0) :
    countChar c (buildTiKVStartScriptModel tc).PDAddr = 0 := by
  obtain ⟨hn, -, -, -, -, hcl⟩ := wellFormed_parts tc hw
  have hpdlit := countChar_eq_zero_of_safe c "-pd" (by decide) hc
  have hport := countChar_eq_zero_of_safe c (toString DefaultPDClientPort) (by decide) hc
  have hnc := countChar_eq_zero_of_safe c tc.name hn hc
  by_cases hA : tc.AcrossK8s = true
  · simp [buildTiKVStartScriptModel, hA, hres]
  · by_cases hH : (tc.Heterogeneous && tc.WithoutLocalPD) = true
    · have hHet : tc.Heterogeneous = true := (Bool.and_eq_true _ _ |>.mp hH).1
      cases hC : tc.spec.cluster with
      | none =>
        rw [TidbCluster.Heterogeneous, hC] at hHet
        exact Bool.noConfusion hHet
      | some r =>
        have hrc := countChar_eq_zero_of_safe c r.name (hcl r hC) hc
        simp [buildTiKVStartScriptModel, hA, hH, hC, PDMemberName, countChar_append,
          hrc, hpdlit, hcolon, hport]
    · simp [buildTiKVStartScriptModel, hA, hH, PDMemberName, countChar_append,
        hnc, hpdlit, hcolon, hport]

set_option maxRecDepth 8192 in
/-- For a well-formed cross-cluster configuration the whole rendered script
contains the percent character exactly once: inside the random-backoff
arithmetic of the discovery-polling loop. -/
theorem countChar_percent_script (tc : TidbCluster)
    (hw : wellFormed tc = true) (hA : tc.AcrossK8s = true) :
    countChar '%' (renderedTiKVScript tc) = 1 := by
  have hc : safeChar '%' = false := by decide
  obtain ⟨hn, hns, hdom, hsub, htime, -⟩ := wellFormed_parts tc hw
  have hhost := countChar_AdvertiseHost tc '%' hw hc (by decide)
  have haddr := countChar_AdvertiseAddr tc '%' hw hc (by decide) (by decide)
  have hlisten := countChar_Addr tc '%' hc (by decide) (by decide)
  have hstatus := countChar_StatusAddr tc '%' hc (by decide) (by decide)
  have hdata := countChar_DataDir tc '%' hw hc
  have hextra := countChar_ExtraArgs tc '%' hw hc (by decide) (by decide) (by decide)
  have hep := countChar_extraArgsPart (buildTiKVStartScriptModel tc) '%' hextra (by decide) (by decide)
  have hpda := countChar_PDAddr tc '%' hw hc (by decide) (by decide)
  have hnc := countChar_eq_zero_of_safe '%' tc.name hn hc
  have hnsc := countChar_eq_zero_of_safe '%' tc.«namespace» hns hc
  have htimec := countChar_eq_zero_of_safe '%' (toString tc.PDStartTimeout) htime hc
  have hcap : (buildTiKVStartScriptModel tc).Capacity = "$\x7bCAPACITY\x7d" := by
    simp [buildTiKVStartScriptModel]
  have hkv : (buildTiKVStartScriptModel tc).KVStartTimeout = tc.PDStartTimeout := by
    simp [buildTiKVStartScriptModel]
  have hacross : (buildTiKVStartScriptModel tc).AcrossK8s
      = some { PDAddr := PDMemberName tc.name ++ ":" ++ toString DefaultPDClientPort,
               DiscoveryAddr := tc.name ++ "-discovery." ++ tc.«namespace» ++ ":10261" } := by
    simp [buildTiKVStartScriptModel, hA]
  have hreplace : countChar '%' (replaceTikvStartScriptDnsAwaitPart
      (buildTiKVStartScriptModel tc) (waitForDnsNameIpMatchOnStartup tc)) = 0 := by
    cases hWb : waitForDnsNameIpMatchOnStartup tc with
    | true =>
      simp only [replaceTikvStartScriptDnsAwaitPart, if_true,
        tikvWaitForDnsIpMatchSubScriptRendered, countChar_append, hhost, hkv, htimec]
      decide
    | false =>
      rfl
  have hacrossc : countChar '%' (acrossPart (buildTiKVStartScriptModel tc)) = 1 := by
    rw [acrossPart, hacross]
    simp only [acrossK8sSubscriptRendered, PDMemberName, countChar_append, hnc, hnsc]
    decide
  have hargs : countChar '%' (argsAssemblyPart (buildTiKVStartScriptModel tc)) = 0 := by
    simp only [argsAssemblyPart, countChar_append, hpda, haddr, hlisten, hstatus, hdata, hcap]
    decide
  rw [renderedTiKVScript, tikvStartScriptTpl, tikvStartScriptRendered]
  simp only [countChar_append, hreplace, hacrossc, hargs, hep]
  decide

set_option maxRecDepth 8192 in
/-- When the wait-for-DNS feature flag is absent, the whole rendered script
contains no asterisk character (the asterisks live only in the DNS-await
fragment). -/
theorem countChar_star_script_noWait (tc : TidbCluster)
    (hw : wellFormed tc = true) (hW : waitForDnsNameIpMatchOnStartup tc = false) :
    countChar '*' (renderedTiKVScript tc) = 0 := by
  have hc : safeChar '*' = false := by decide
  obtain ⟨hn, hns, hdom, hsub, htime, -⟩ := wellFormed_parts tc hw
  have haddr := countChar_AdvertiseAddr tc '*' hw hc (by decide) (by decide)
  have hlisten := countChar_Addr tc '*' hc (by decide) (by decide)
  have hstatus := countChar_StatusAddr tc '*' hc (by decide) (by decide)
  have hdata := countChar_DataDir tc '*' hw hc
  have hextra := countChar_ExtraArgs tc '*' hw hc (by decide) (by decide) (by decide)
  have hep := countChar_extraArgsPart (buildTiKVStartScriptModel tc) '*' hextra (by decide) (by decide)
  have hpda := countChar_PDAddr tc '*' hw hc (by decide) (by decide)
  have hnc := countChar_eq_zero_of_safe '*' tc.name hn hc
  have hnsc := countChar_eq_zero_of_safe '*' tc.«namespace» hns hc
  have hcap : (buildTiKVStartScriptModel tc).Capacity = "$\x7bCAPACITY\x7d" := by
    simp [buildTiKVStartScriptModel]
  have hacrossc : countChar '*' (acrossPart (buildTiKVStartScriptModel tc)) = 0 := by
    by_cases hA : tc.AcrossK8s = true
    · have hacross : (buildTiKVStartScriptModel tc).AcrossK8s
          = some { PDAddr := PDMemberName tc.name ++ ":" ++ toString DefaultPDClientPort,
                   DiscoveryAddr := tc.name ++ "-discovery." ++ tc.«namespace» ++ ":10261" } := by
        simp [buildTiKVStartScriptModel, hA]
      rw [acrossPart, hacross]
      simp only [acrossK8sSubscriptRendered, PDMemberName, countChar_append, hnc, hnsc]
      decide
    · have hnone : (buildTiKVStartScriptModel tc).AcrossK8s = none := by
        simp [buildTiKVStartScriptModel, hA]
      rw [acrossPart, hnone]
      rfl
  have hargs : countChar '*' (argsAssemblyPart (buildTiKVStartScriptModel tc)) = 0 := by
    simp only [argsAssemblyPart, countChar_append, hpda, haddr, hlisten, hstatus, hdata, hcap]
    decide
  rw [renderedTiKVScript, tikvStartScriptTpl, tikvStartScriptRendered, hW]
  have hreplace : replaceTikvStartScriptDnsAwaitPart (buildTiKVStartScriptModel tc) false
      = "" := rfl
  simp only [countChar_append, hreplace, hacrossc, hargs, hep]
  decide

/-- C6: the rendered listen and status addresses bind the wildcard host
matching the addressing preference, bracketed all-interfaces IPv6 literal or
all-interfaces IPv4 literal, with the fixed server and status ports, and the
script carries them as the values of the addr and status-addr flags. -/
theorem claim_C6_wildcard_listen_addresses (tc : TidbCluster) :
    (tc.spec.preferIPv6 = true →
      (buildTiKVStartScriptModel tc).Addr = "[::]:20160"
      ∧ (buildTiKVStartScriptModel tc).StatusAddr = "[::]:20180")
    ∧ (tc.spec.preferIPv6 = false →
      (buildTiKVStartScriptModel tc).Addr = "0.0.0.0:20160"
      ∧ (buildTiKVStartScriptModel tc).StatusAddr = "0.0.0.0:20180")
    ∧ containsSub
        (" \\\n--addr=" ++ (buildTiKVStartScriptModel tc).Addr
          ++ " \\\n--status-addr=" ++ (buildTiKVStartScriptModel tc).StatusAddr
          ++ " \\\n--data-dir=")
        (renderedTiKVScript tc) := by
  refine ⟨?_, ?_, ?_⟩
  · intro h
    constructor <;> (simp [buildTiKVStartScriptModel, h]; decide)
  · intro h
    constructor <;> (simp [buildTiKVStartScriptModel, h]; decide)
  · refine ⟨componentCommonScript ++ podNameLine
      ++ replaceTikvStartScriptDnsAwaitPart (buildTiKVStartScriptModel tc)
          (waitForDnsNameIpMatchOnStartup tc)
      ++ acrossPart (buildTiKVStartScriptModel tc)
      ++ "\n\nARGS=\"--pd=" ++ (buildTiKVStartScriptModel tc).PDAddr
      ++ " \\\n--advertise-addr=" ++ (buildTiKVStartScriptModel tc).AdvertiseAddr,
      (buildTiKVStartScriptModel tc).DataDir
      ++ " \\\n--capacity=" ++ (buildTiKVStartScriptModel tc).Capacity
      ++ " \\\n--config=/etc/tikv/tikv.toml\""
      ++ extraArgsPart (buildTiKVStartScriptModel tc) ++ storeLabelsAndExecPart, ?_⟩
    simp [renderedTiKVScript, tikvStartScriptTpl, tikvStartScriptRendered,
      argsAssemblyPart, String.append_assoc]

/-- Witness for C6 at the scenario C configuration (IPv6 preference). -/
theorem claim_C6_wildcard_listen_addresses_witness :
    (buildTiKVStartScriptModel tcScenarioC).Addr = "[::]:20160"
    ∧ (buildTiKVStartScriptModel tcScenarioC).StatusAddr = "[::]:20180" :=
  (claim_C6_wildcard_listen_addresses tcScenarioC).1 rfl

/-- C10: flipping only the IPv6 addressing preference changes only the listen
and status addresses of the resolved value-set; the PD endpoint, advertise
host, advertise address, data directory, capacity placeholder, timeout, extra
arguments and cross-cluster section are identical, and for well-formed input
the advertise address stays DNS-name based: it never contains a bracket. -/
theorem claim_C10_ipv6_frame (tc : TidbCluster) :
    (buildTiKVStartScriptModel (withIPv6 tc true)).PDAddr
        = (buildTiKVStartScriptModel (withIPv6 tc false)).PDAddr
    ∧ (buildTiKVStartScriptModel (withIPv6 tc true)).AdvertiseHost
        = (buildTiKVStartScriptModel (withIPv6 tc false)).AdvertiseHost
    ∧ (buildTiKVStartScriptModel (withIPv6 tc true)).AdvertiseAddr
        = (buildTiKVStartScriptModel (withIPv6 tc false)).AdvertiseAddr
    ∧ (buildTiKVStartScriptModel (withIPv6 tc true)).DataDir
        = (buildTiKVStartScriptModel (withIPv6 tc false)).DataDir
    ∧ (buildTiKVStartScriptModel (withIPv6 tc true)).Capacity
        = (buildTiKVStartScriptModel (withIPv6 tc false)).Capacity
    ∧ (buildTiKVStartScriptModel (withIPv6 tc true)).KVStartTimeout
        = (buildTiKVStartScriptModel (withIPv6 tc false)).KVStartTimeout
    ∧ (buildTiKVStartScriptModel (withIPv6 tc true)).ExtraArgs
        = (buildTiKVStartScriptModel (withIPv6 tc false)).ExtraArgs
    ∧ (buildTiKVStartScriptModel (withIPv6 tc true)).AcrossK8s
        = (buildTiKVStartScriptModel (withIPv6 tc false)).AcrossK8s
    ∧ (buildTiKVStartScriptModel (withIPv6 tc true)).Addr = "[::]:20160"
    ∧ (buildTiKVStartScriptModel (withIPv6 tc false)).Addr = "0.0.0.0:20160"
    ∧ (buildTiKVStartScriptModel (withIPv6 tc true)).StatusAddr = "[::]:20180"
    ∧ (buildTiKVStartScriptModel (withIPv6 tc false)).StatusAddr = "0.0.0.0:20180"
    ∧ (wellFormed tc = true →
        countChar '[' (buildTiKVStartScriptModel (withIPv6 tc true)).AdvertiseAddr = 0
        ∧ countChar '[' (buildTiKVStartScriptModel (withIPv6 tc false)).AdvertiseAddr = 0) := by
  refine ⟨rfl, rfl, rfl, rfl, rfl, rfl, rfl, rfl, ?_, ?_, ?_, ?_, ?_⟩
  · simp [withIPv6, buildTiKVStartScriptModel]; decide
  · simp [withIPv6, buildTiKVStartScriptModel]; decide
  · simp [withIPv6, buildTiKVStartScriptModel]; decide
  · simp [withIPv6, buildTiKVStartScriptModel]; decide
  · intro hw
    have hwt : wellFormed (withIPv6 tc true) = true := hw
    have hwf : wellFormed (withIPv6 tc false) = true := hw
    exact ⟨countChar_AdvertiseAddr (withIPv6 tc true) '[' hwt (by decide) (by decide) (by decide),
      countChar_AdvertiseAddr (withIPv6 tc false) '[' hwf (by decide) (by decide) (by decide)⟩

/-- Witness for C10 at the scenario A configuration: the advertise addresses
of both IPv6 variants are bracket-free. -/
theorem claim_C10_ipv6_frame_witness :
    countChar '[' (buildTiKVStartScriptModel (withIPv6 tcScenarioA true)).AdvertiseAddr = 0
    ∧ countChar '[' (buildTiKVStartScriptModel (withIPv6 tcScenarioA false)).AdvertiseAddr = 0 :=
  (claim_C10_ipv6_frame tcScenarioA).2.2.2.2.2.2.2.2.2.2.2.2 (by decide)

/-- String-level exactly-once criterion for pattern occurrence. -/
theorem subCountStr_eq_one (p s : String) (c : Char) (u v : String)
    (hc : c ∈ p.data) (h1 : countChar c s = 1) (hd : s = u ++ p ++ v) :
    subCountStr p s = 1 := by
  rw [subCountStr]
  refine subCount_eq_one p.data s.data c u.data v.data hc h1 ?_
  rw [hd, String.data_append, String.data_append]

/-- String-level absence criterion for pattern occurrence. -/
theorem subCountStr_eq_zero (p s : String) (c : Char)
    (hc : c ∈ p.data) (h0 : countChar c s = 0) :
    subCountStr p s = 0 := by
  rw [subCountStr]
  exact subCount_eq_zero p.data s.data c hc h0

/-- The rendered discovery subscript contains exactly one percent character
when its substituted addresses contain none. -/
theorem countChar_percent_acrossSub (a : AcrossK8sScriptModel)
    (h1 : countChar '%' a.PDAddr = 0) (h2 : countChar '%' a.DiscoveryAddr = 0) :
    countChar '%' (acrossK8sSubscriptRendered a) = 1 := by
  simp only [acrossK8sSubscriptRendered, countChar_append, h1, h2]
  decide

set_option maxRecDepth 8192 in
/-- C2 (amended): for every well-formed cross-cluster configuration the
coordinator flag value is the placeholder token (the --pd flag is immediately
followed by the placeholder, never by the literal address), the discovery
subscript seeds its polling loop with the literal computed coordinator address
and the discovery service address, and that discovery-polling subscript,
which references the base64-encoded coordinator URL, appears exactly once in
the rendered script.  The original claim that the literal computed coordinator
address is absent from the whole output is refuted by the counterexample
below: it appears as the pd_url seed of the discovery loop. -/
theorem claim_C2_cross_cluster_placeholder (tc : TidbCluster)
    (hw : wellFormed tc = true) (hA : tc.AcrossK8s = true) :
    (buildTiKVStartScriptModel tc).PDAddr = "$\x7bresult\x7d"
    ∧ containsSub ("\n\nARGS=\"--pd=$\x7bresult\x7d \\\n--advertise-addr=")
        (renderedTiKVScript tc)
    ∧ ∃ a, (buildTiKVStartScriptModel tc).AcrossK8s = some a
        ∧ a.PDAddr = PDMemberName tc.name ++ ":" ++ toString DefaultPDClientPort
        ∧ a.DiscoveryAddr = tc.name ++ "-discovery." ++ tc.«namespace» ++ ":10261"
        ∧ subCountStr (acrossK8sSubscriptRendered a) (renderedTiKVScript tc) = 1 := by
  have hpd : (buildTiKVStartScriptModel tc).PDAddr = "$\x7bresult\x7d" := by
    simp [buildTiKVStartScriptModel, hA]
  have hacross : (buildTiKVStartScriptModel tc).AcrossK8s
      = some { PDAddr := PDMemberName tc.name ++ ":" ++ toString DefaultPDClientPort,
               DiscoveryAddr := tc.name ++ "-discovery." ++ tc.«namespace» ++ ":10261" } := by
    simp [buildTiKVStartScriptModel, hA]
  refine ⟨hpd, ?_, ?_⟩
  · refine ⟨componentCommonScript ++ podNameLine
      ++ replaceTikvStartScriptDnsAwaitPart (buildTiKVStartScriptModel tc)
          (waitForDnsNameIpMatchOnStartup tc)
      ++ acrossPart (buildTiKVStartScriptModel tc),
      (buildTiKVStartScriptModel tc).AdvertiseAddr
      ++ " \\\n--addr=" ++ (buildTiKVStartScriptModel tc).Addr
      ++ " \\\n--status-addr=" ++ (buildTiKVStartScriptModel tc).StatusAddr
      ++ " \\\n--data-dir=" ++ (buildTiKVStartScriptModel tc).DataDir
      ++ " \\\n--capacity=" ++ (buildTiKVStartScriptModel tc).Capacity
      ++ " \\\n--config=/etc/tikv/tikv.toml\""
      ++ extraArgsPart (buildTiKVStartScriptModel tc) ++ storeLabelsAndExecPart, ?_⟩
    simp [renderedTiKVScript, tikvStartScriptTpl, tikvStartScriptRendered,
      argsAssemblyPart, hpd, String.append_assoc]
  · refine ⟨{ PDAddr := PDMemberName tc.name ++ ":" ++ toString DefaultPDClientPort,
              DiscoveryAddr := tc.name ++ "-discovery." ++ tc.«namespace» ++ ":10261" },
      hacross, rfl, rfl, ?_⟩
    obtain ⟨hn, hns, -, -, -, -⟩ := wellFormed_parts tc hw
    have hc : safeChar '%' = false := by decide
    have hnc := countChar_eq_zero_of_safe '%' tc.name hn hc
    have hnsc := countChar_eq_zero_of_safe '%' tc.«namespace» hns hc
    have hfp : countChar '%'
        (AcrossK8sScriptModel.PDAddr
          { PDAddr := PDMemberName tc.name ++ ":" ++ toString DefaultPDClientPort,
            DiscoveryAddr := tc.name ++ "-discovery." ++ tc.«namespace» ++ ":10261" }) = 0 := by
      simp only [PDMemberName, countChar_append, hnc]
      decide
    have hfd : countChar '%'
        (AcrossK8sScriptModel.DiscoveryAddr
          { PDAddr := PDMemberName tc.name ++ ":" ++ toString DefaultPDClientPort,
            DiscoveryAddr := tc.name ++ "-discovery." ++ tc.«namespace» ++ ":10261" }) = 0 := by
      simp only [countChar_append, hnc, hnsc]
      decide
    have hfc := countChar_percent_acrossSub _ hfp hfd
    have hmem : '%' ∈ (acrossK8sSubscriptRendered
        { PDAddr := PDMemberName tc.name ++ ":" ++ toString DefaultPDClientPort,
          DiscoveryAddr := tc.name ++ "-discovery." ++ tc.«namespace» ++ ":10261" }).data := by
      have : 0 < List.count '%' (acrossK8sSubscriptRendered
          { PDAddr := PDMemberName tc.name ++ ":" ++ toString DefaultPDClientPort,
            DiscoveryAddr := tc.name ++ "-discovery." ++ tc.«namespace» ++ ":10261" }).data := by
        have hx : countChar '%' (acrossK8sSubscriptRendered
            { PDAddr := PDMemberName tc.name ++ ":" ++ toString DefaultPDClientPort,
              DiscoveryAddr := tc.name ++ "-discovery." ++ tc.«namespace» ++ ":10261" }) = 1 := hfc
        rw [countChar] at hx
        omega
      exact List.count_pos_iff.mp this
    have hap : acrossPart (buildTiKVStartScriptModel tc)
        = acrossK8sSubscriptRendered
          { PDAddr := PDMemberName tc.name ++ ":" ++ toString DefaultPDClientPort,
            DiscoveryAddr := tc.name ++ "-discovery." ++ tc.«namespace» ++ ":10261" } := by
      rw [acrossPart, hacross]
    have hsplit : renderedTiKVScript tc
        = (componentCommonScript ++ podNameLine
            ++ replaceTikvStartScriptDnsAwaitPart (buildTiKVStartScriptModel tc)
                (waitForDnsNameIpMatchOnStartup tc))
          ++ acrossK8sSubscriptRendered
            { PDAddr := PDMemberName tc.name ++ ":" ++ toString DefaultPDClientPort,
              DiscoveryAddr := tc.name ++ "-discovery." ++ tc.«namespace» ++ ":10261" }
          ++ (argsAssemblyPart (buildTiKVStartScriptModel tc)
              ++ extraArgsPart (buildTiKVStartScriptModel tc) ++ storeLabelsAndExecPart) := by
      simp only [renderedTiKVScript, tikvStartScriptTpl, tikvStartScriptRendered, hap,
        String.append_assoc]
    exact subCountStr_eq_one _ _ '%' _ _ hmem (countChar_percent_script tc hw hA) hsplit

set_option maxRecDepth 20000 in
/-- C2 counterexample: in the rendered script of a concrete cross-cluster
configuration the literal computed coordinator address does occur (as the
pd_url seed), contradicting the claim that it is absent from the output. -/
theorem claim_C2_counterexample :
    tcScenarioB.AcrossK8s = true
    ∧ 1 ≤ subCountStr (PDMemberName tcScenarioB.name ++ ":" ++ toString DefaultPDClientPort)
          (renderedTiKVScript tcScenarioB) := by
  refine ⟨rfl, ?_⟩
  have hd : renderedTiKVScript tcScenarioB
      = "#!/bin/sh\n\nset -uo pipefail\n\nTIKV_POD_NAME=$\x7bPOD_NAME:-$HOSTNAME\x7d\npd_url="
        ++ (PDMemberName tcScenarioB.name ++ ":" ++ toString DefaultPDClientPort)
        ++ "\nencoded_domain_url=$(echo $pd_url | base64 | tr \"\\n\" \" \" | sed \"s/ //g\")\ndiscovery_url=db-discovery.ns:10261\nuntil result=$(wget -qO- -T 3 http://$\x7bdiscovery_url\x7d/verify/$\x7bencoded_domain_url\x7d 2>/dev/null | sed \x27s/http:\\/\\///g\x27); do\n    echo \"waiting for the verification of PD endpoints ...\"\n    sleep $((RANDOM % 5))\ndone\n\nARGS=\"--pd=$\x7bresult\x7d \\\n--advertise-addr=$\x7bTIKV_POD_NAME\x7d.db-tikv-peer.ns.svc:20160 \\\n--addr=0.0.0.0:20160 \\\n--status-addr=0.0.0.0:20180 \\\n--data-dir=/var/lib/tikv \\\n--capacity=$\x7bCAPACITY\x7d \\\n--config=/etc/tikv/tikv.toml\"\n\nif [ ! -z \"$\x7bSTORE_LABELS:-\x7d\" ]; then\n  LABELS=\"--labels $\x7bSTORE_LABELS\x7d \"\n  ARGS=\"$\x7bARGS\x7d$\x7bLABELS\x7d\"\nfi\n\necho \"starting tikv-server ...\"\necho \"/tikv-server $\x7bARGS\x7d\"\nexec /tikv-server $\x7bARGS\x7d\n" := by
    rfl
  rw [subCountStr, hd, String.data_append, String.data_append]
  exact subCount_ge_one _ (by decide) _ _

/-- Witness for the amended C2 at the scenario B configuration. -/
theorem claim_C2_cross_cluster_placeholder_witness :
    (buildTiKVStartScriptModel tcScenarioB).PDAddr = "$\x7bresult\x7d" :=
  (claim_C2_cross_cluster_placeholder tcScenarioB (by decide) rfl).1

/-- C3: the DNS-await fragment occurs in the rendered script exactly when the
feature-flag token list contains the wait-for-DNS-name-IP-match token; when
the token is absent the substituted fragment is the empty string and the
script contains no occurrence of the polling fragment referencing the
advertise host. -/
theorem claim_C3_dns_await_iff_flag (tc : TidbCluster) (hw : wellFormed tc = true) :
    (containsSub (tikvWaitForDnsIpMatchSubScriptRendered (buildTiKVStartScriptModel tc))
        (renderedTiKVScript tc)
      ↔ tc.spec.startScriptV2FeatureFlags.contains StartScriptV2FeatureFlagWaitForDnsNameIpMatch = true)
    ∧ (tc.spec.startScriptV2FeatureFlags.contains StartScriptV2FeatureFlagWaitForDnsNameIpMatch = false →
        replaceTikvStartScriptDnsAwaitPart (buildTiKVStartScriptModel tc) false = ""
        ∧ ¬ containsSub (tikvWaitForDnsIpMatchSubScriptRendered (buildTiKVStartScriptModel tc))
            (renderedTiKVScript tc)) := by
  have hfrag2 : 2 ≤ countChar '*'
      (tikvWaitForDnsIpMatchSubScriptRendered (buildTiKVStartScriptModel tc)) := by
    have hl3 : countChar '*'
        "\nnsLookupCmd=\"getent ahosts $componentDomain | sed -n \x27s/ *STREAM.*//p\x27\"\n" = 2 := by
      decide
    simp only [tikvWaitForDnsIpMatchSubScriptRendered, countChar_append, hl3]
    omega
  have hkey : tc.spec.startScriptV2FeatureFlags.contains
        StartScriptV2FeatureFlagWaitForDnsNameIpMatch = false →
      ¬ containsSub (tikvWaitForDnsIpMatchSubScriptRendered (buildTiKVStartScriptModel tc))
          (renderedTiKVScript tc) := by
    intro hW
    rintro ⟨u, v, huv⟩
    have hW' : waitForDnsNameIpMatchOnStartup tc = false := hW
    have h0 := countChar_star_script_noWait tc hw hW'
    have hc2 := congrArg (countChar '*') huv
    rw [countChar_append, countChar_append] at hc2
    omega
  constructor
  · constructor
    · intro hsub
      by_contra hne
      have hW : tc.spec.startScriptV2FeatureFlags.contains
          StartScriptV2FeatureFlagWaitForDnsNameIpMatch = false := by
        cases h : tc.spec.startScriptV2FeatureFlags.contains
            StartScriptV2FeatureFlagWaitForDnsNameIpMatch
        · rfl
        · exact absurd h hne
      exact hkey hW hsub
    · intro hW
      refine ⟨componentCommonScript ++ podNameLine,
        acrossPart (buildTiKVStartScriptModel tc)
          ++ argsAssemblyPart (buildTiKVStartScriptModel tc)
          ++ extraArgsPart (buildTiKVStartScriptModel tc) ++ storeLabelsAndExecPart, ?_⟩
      have hW' : waitForDnsNameIpMatchOnStartup tc = true := hW
      simp only [renderedTiKVScript, tikvStartScriptTpl, tikvStartScriptRendered, hW',
        replaceTikvStartScriptDnsAwaitPart, if_true, String.append_assoc]
  · intro hW
    exact ⟨rfl, hkey hW⟩

/-- Witness for C3 at a configuration carrying the feature-flag token. -/
theorem claim_C3_dns_await_iff_flag_witness :
    containsSub (tikvWaitForDnsIpMatchSubScriptRendered (buildTiKVStartScriptModel tcScenarioDns))
      (renderedTiKVScript tcScenarioDns) :=
  (claim_C3_dns_await_iff_flag tcScenarioDns (by decide)).1.mpr (by decide)

set_option maxHeartbeats 1000000 in
/-- C4: the extra-argument string is appended to the assembled ARGS line
exactly when dynamic configuration is enabled; when present it is exactly one
advertise-status-addr flag built from the advertise host and the status port,
placed immediately after the base flags and separated by a single space, and
when disabled the base flags are followed directly by the store-labels
conditional with no extra-argument line. -/
theorem claim_C4_extra_args_iff_dynamic_config (tc : TidbCluster) :
    (tc.spec.enableDynamicConfiguration = some true →
      (buildTiKVStartScriptModel tc).ExtraArgs
          = "--advertise-status-addr=" ++ (buildTiKVStartScriptModel tc).AdvertiseHost
            ++ ":" ++ toString DefaultTiKVStatusPort
      ∧ containsSub
          (" \\\n--config=/etc/tikv/tikv.toml\""
            ++ ("\nARGS=\"$\x7bARGS\x7d "
              ++ ((buildTiKVStartScriptModel tc).ExtraArgs
                ++ "\"\n\nif [ ! -z \"$\x7bSTORE_LABELS:-\x7d\" ]; then")))
          (renderedTiKVScript tc))
    ∧ (tc.spec.enableDynamicConfiguration ≠ some true →
      (buildTiKVStartScriptModel tc).ExtraArgs = ""
      ∧ containsSub
          (" \\\n--config=/etc/tikv/tikv.toml\"\n\nif [ ! -z \"$\x7bSTORE_LABELS:-\x7d\" ]; then")
          (renderedTiKVScript tc)) := by
  constructor
  · intro he
    have hint : ∀ x : String, String.intercalate " " [x] = x := fun _ => rfl
    have hx : (buildTiKVStartScriptModel tc).ExtraArgs
        = "--advertise-status-addr=" ++ (buildTiKVStartScriptModel tc).AdvertiseHost
          ++ ":" ++ toString DefaultTiKVStatusPort := by
      simp [buildTiKVStartScriptModel, he, hint]
    refine ⟨hx, ?_⟩
    have hne : (buildTiKVStartScriptModel tc).ExtraArgs ≠ "" := by
      rw [hx]
      intro h0
      have hlen := congrArg String.length h0
      simp only [String.length_append] at hlen
      have h24 : "--advertise-status-addr=".length = 24 := rfl
      have hc1 : ":".length = 1 := rfl
      have hz : ("" : String).length = 0 := rfl
      omega
    have hep : extraArgsPart (buildTiKVStartScriptModel tc)
        = "\nARGS=\"$\x7bARGS\x7d " ++ (buildTiKVStartScriptModel tc).ExtraArgs ++ "\"" := by
      rw [extraArgsPart, if_pos hne]
    refine ⟨componentCommonScript ++ podNameLine
      ++ replaceTikvStartScriptDnsAwaitPart (buildTiKVStartScriptModel tc)
          (waitForDnsNameIpMatchOnStartup tc)
      ++ acrossPart (buildTiKVStartScriptModel tc)
      ++ "\n\nARGS=\"--pd=" ++ (buildTiKVStartScriptModel tc).PDAddr
      ++ " \\\n--advertise-addr=" ++ (buildTiKVStartScriptModel tc).AdvertiseAddr
      ++ " \\\n--addr=" ++ (buildTiKVStartScriptModel tc).Addr
      ++ " \\\n--status-addr=" ++ (buildTiKVStartScriptModel tc).StatusAddr
      ++ " \\\n--data-dir=" ++ (buildTiKVStartScriptModel tc).DataDir
      ++ " \\\n--capacity=" ++ (buildTiKVStartScriptModel tc).Capacity,
      "\n  LABELS=\"--labels $\x7bSTORE_LABELS\x7d \"\n  ARGS=\"$\x7bARGS\x7d$\x7bLABELS\x7d\"\nfi\n\necho \"starting tikv-server ...\"\necho \"/tikv-server $\x7bARGS\x7d\"\nexec /tikv-server $\x7bARGS\x7d\n", ?_⟩
    simp [renderedTiKVScript, tikvStartScriptTpl, tikvStartScriptRendered,
      argsAssemblyPart, hep, storeLabelsAndExecPart, String.append_assoc]
  · intro he
    have hx0 : (buildTiKVStartScriptModel tc).ExtraArgs = "" := by
      simp [buildTiKVStartScriptModel, he]
    refine ⟨hx0, ?_⟩
    have hep0 : extraArgsPart (buildTiKVStartScriptModel tc) = "" := by
      rw [extraArgsPart, if_neg (by simp [hx0])]
    refine ⟨componentCommonScript ++ podNameLine
      ++ replaceTikvStartScriptDnsAwaitPart (buildTiKVStartScriptModel tc)
          (waitForDnsNameIpMatchOnStartup tc)
      ++ acrossPart (buildTiKVStartScriptModel tc)
      ++ "\n\nARGS=\"--pd=" ++ (buildTiKVStartScriptModel tc).PDAddr
      ++ " \\\n--advertise-addr=" ++ (buildTiKVStartScriptModel tc).AdvertiseAddr
      ++ " \\\n--addr=" ++ (buildTiKVStartScriptModel tc).Addr
      ++ " \\\n--status-addr=" ++ (buildTiKVStartScriptModel tc).StatusAddr
      ++ " \\\n--data-dir=" ++ (buildTiKVStartScriptModel tc).DataDir
      ++ " \\\n--capacity=" ++ (buildTiKVStartScriptModel tc).Capacity,
      "\n  LABELS=\"--labels $\x7bSTORE_LABELS\x7d \"\n  ARGS=\"$\x7bARGS\x7d$\x7bLABELS\x7d\"\nfi\n\necho \"starting tikv-server ...\"\necho \"/tikv-server $\x7bARGS\x7d\"\nexec /tikv-server $\x7bARGS\x7d\n", ?_⟩
    simp [renderedTiKVScript, tikvStartScriptTpl, tikvStartScriptRendered,
      argsAssemblyPart, hep0, storeLabelsAndExecPart, String.append_assoc]

/-- Witness for C4 at the scenario D configuration. -/
theorem claim_C4_extra_args_iff_dynamic_config_witness :
    (buildTiKVStartScriptModel tcScenarioD).ExtraArgs
      = "--advertise-status-addr=" ++ (buildTiKVStartScriptModel tcScenarioD).AdvertiseHost
        ++ ":" ++ toString DefaultTiKVStatusPort :=
  ((claim_C4_extra_args_iff_dynamic_config tcScenarioD).1 rfl).1

/-- C7: every cross-cluster script carries the discovery-polling subscript;
its modelled runtime sleeps a random backoff bounded by 0-4 time units per
attempt and, as long as the discovery service keeps failing, never exits:
there is no upper retry limit or timeout. -/
theorem claim_C7_discovery_loop_unbounded (tc : TidbCluster)
    (hA : tc.AcrossK8s = true) :
    (∃ a, (buildTiKVStartScriptModel tc).AcrossK8s = some a
       ∧ containsSub (acrossK8sSubscriptRendered a) (renderedTiKVScript tc))
    ∧ (∀ rand : Nat, discoveryBackoff rand ≤ 4)
    ∧ (∀ oracle : Nat → Option String,
        (∀ i, oracle i = none) → ∀ n, discoveryLoopExitsBy oracle n = false) := by
  refine ⟨?_, ?_, ?_⟩
  · have hacross : (buildTiKVStartScriptModel tc).AcrossK8s
        = some { PDAddr := PDMemberName tc.name ++ ":" ++ toString DefaultPDClientPort,
                 DiscoveryAddr := tc.name ++ "-discovery." ++ tc.«namespace» ++ ":10261" } := by
      simp [buildTiKVStartScriptModel, hA]
    refine ⟨_, hacross, ?_⟩
    have hap : acrossPart (buildTiKVStartScriptModel tc)
        = acrossK8sSubscriptRendered
          { PDAddr := PDMemberName tc.name ++ ":" ++ toString DefaultPDClientPort,
            DiscoveryAddr := tc.name ++ "-discovery." ++ tc.«namespace» ++ ":10261" } := by
      rw [acrossPart, hacross]
    refine ⟨componentCommonScript ++ podNameLine
      ++ replaceTikvStartScriptDnsAwaitPart (buildTiKVStartScriptModel tc)
          (waitForDnsNameIpMatchOnStartup tc),
      argsAssemblyPart (buildTiKVStartScriptModel tc)
        ++ extraArgsPart (buildTiKVStartScriptModel tc) ++ storeLabelsAndExecPart, ?_⟩
    simp only [renderedTiKVScript, tikvStartScriptTpl, tikvStartScriptRendered, hap,
      String.append_assoc]
  · intro rand
    have := Nat.mod_lt rand (show 0 < 5 by decide)
    rw [discoveryBackoff]
    omega
  · intro oracle h n
    induction n with
    | zero => rfl
    | succ k ih => simp [discoveryLoopExitsBy, ih, h k]

/-- Witness for C7 at the scenario B configuration. -/
theorem claim_C7_discovery_loop_unbounded_witness :
    tcScenarioB.AcrossK8s = true ∧ discoveryBackoff 9 ≤ 4 :=
  ⟨rfl, (claim_C7_discovery_loop_unbounded tcScenarioB rfl).2.1 9⟩
